import Mathlib

/-!
Verification of the badge-generator library (`source/badges.js`).

The library is a catalog of pure string-templating functions: each generator
takes a configuration object of optional string fields, validates required
fields, and interpolates them into a fixed URL or HTML template, usually via
the shared `badge` renderer.

The shallow embedding below mirrors the JavaScript source:
  * a configuration object is an `Opts` record whose fields are
    `Option String` (JavaScript `undefined` is `none`);
  * JavaScript truthiness of a string-valued field (`!x` is true for both
    `undefined` and `""`) is the `truthy` predicate;
  * `throw new Error(msg)` becomes `Except.error` carrying a `BadgeError`
    constructor chosen by the error family (missing field / invalid slug /
    invalid type), with the exact source message preserved;
  * the JavaScript global `escape`, Node's `querystring.stringify`,
    `String.prototype.split` with a one-character separator, and the
    `replace(/\n\s*/g, '')` call in `quorafollow` are modelled by `escape`,
    `qsStringify`, `jsSplit` and `stripNlWs`;
  * the two environment variables read by the library
    (`SAUCELABS_AUTH_TOKEN`, `FACEBOOK_APPLICATION_ID`) are passed as an
    explicit `env : Option String` parameter to the four generators that
    consult them.
-/

namespace Badges

deriving instance DecidableEq for Except

/-- Error values thrown by the generators. Each constructor is one family of
the library's error taxonomy; the payload is the exact message string used by
the JavaScript source (`throw new Error(message)`). -/
inductive BadgeError where
  | missingField (message : String)
  | invalidSlug (message : String)
  | invalidType (message : String)
deriving DecidableEq, Repr

/-- JavaScript truthiness of an optional string: `undefined` and `""` are
falsy, every other string is truthy. -/
def truthy : Option String → Bool
  | none => false
  | some s => !s.isEmpty

/-- JavaScript `a || b` on optional strings: `a` when truthy, otherwise `b`. -/
def jsOr (a b : Option String) : Option String := if truthy a then a else b

theorem append_eq_empty_iff (a b : String) : (a ++ b) = "" ↔ a = "" ∧ b = "" := by
  constructor
  · intro h
    have hd := congrArg String.data h
    rw [String.data_append] at hd
    simp at hd
    exact ⟨String.ext hd.1, String.ext hd.2⟩
  · rintro ⟨rfl, rfl⟩
    rfl

attribute [simp] append_eq_empty_iff

@[simp] theorem isEmpty_beq (s : String) : s.isEmpty = (s == "") := by
  cases he : s.isEmpty
  · have hne : s ≠ "" := by
      intro hc
      subst hc
      exact absurd he (by decide)
    simp [hne]
  · have he' : s = "" := (String.isEmpty_iff s).mp he
    subst he'
    rfl

@[simp] theorem truthy_some (s : String) : truthy (some s) = !(s == "") := by
  show (!s.isEmpty) = !(s == "")
  rw [isEmpty_beq]

@[simp] theorem truthy_none : truthy none = false := rfl

theorem beq_empty_false_of_truthy (a : Option String) (h : truthy a = true) :
    (a.getD "" == "") = false := by
  cases a with
  | none => exact absurd h (by decide)
  | some s =>
    simp only [truthy_some, Bool.not_eq_eq_eq_not, Bool.not_true] at h
    simpa using h

/-- JavaScript `String.prototype.split` with a one-character separator,
on the character list of the string. -/
def jsSplitList (sep : Char) : List Char → List String
  | [] => [""]
  | c :: cs =>
    let rest := jsSplitList sep cs
    if c = sep then "" :: rest
    else
      match rest with
      | [] => [String.singleton c]
      | r :: rs => (String.singleton c ++ r) :: rs

/-- JavaScript `s.split(sep)` for a one-character separator `sep`. -/
def jsSplit (s : String) (sep : Char) : List String := jsSplitList sep s.data

def hexDigit (n : Nat) : Char := if n < 10 then Char.ofNat (48 + n) else Char.ofNat (55 + n)

def hex2 (n : Nat) : String := String.mk [hexDigit (n / 16 % 16), hexDigit (n % 16)]

def hex4 (n : Nat) : String :=
  String.mk [hexDigit (n / 4096 % 16), hexDigit (n / 256 % 16), hexDigit (n / 16 % 16), hexDigit (n % 16)]

/-- Characters left unchanged by the JavaScript global `escape`:
ASCII alphanumerics and `@ * _ + - . /`. -/
def escapeSafe (c : Char) : Bool := c.isAlphanum || "@*_+-./".data.contains c

/-- One character of the JavaScript global `escape`: safe characters are kept,
code units below 256 become `%XX`, other code units become `%uXXXX`
(a code point above `0xFFFF` is escaped as its two UTF-16 surrogates). -/
def escapeChar (c : Char) : String :=
  if escapeSafe c then String.singleton c
  else if c.toNat < 256 then "%" ++ hex2 c.toNat
  else if c.toNat < 65536 then "%u" ++ hex4 c.toNat
  else
    "%u" ++ hex4 (55296 + (c.toNat - 65536) / 1024) ++ "%u" ++ hex4 (56320 + (c.toNat - 65536) % 1024)

/-- The JavaScript global `escape`. -/
def escape (s : String) : String := s.data.foldl (fun acc c => acc ++ escapeChar c) ""

/-- UTF-8 bytes of a Unicode code point. -/
def utf8Bytes (n : Nat) : List Nat :=
  if n < 128 then [n]
  else if n < 2048 then [192 + n / 64, 128 + n % 64]
  else if n < 65536 then [224 + n / 4096, 128 + n / 64 % 64, 128 + n % 64]
  else [240 + n / 262144, 128 + n / 4096 % 64, 128 + n / 64 % 64, 128 + n % 64]

/-- Characters left unchanged by Node's `querystring.escape`
(`encodeURIComponent` semantics): ASCII alphanumerics and `- _ . ! ~ * ' ( )`. -/
def qsEscapeSafe (c : Char) : Bool := c.isAlphanum || "-_.!~*\x27()".data.contains c

def qsEscapeChar (c : Char) : String :=
  if qsEscapeSafe c then String.singleton c
  else String.join ((utf8Bytes c.toNat).map (fun b => "%" ++ hex2 b))

/-- Node's `querystring.escape` (percent-encoding of UTF-8 bytes). -/
def qsEscape (s : String) : String := s.data.foldl (fun acc c => acc ++ qsEscapeChar c) ""

/-- Node's `querystring.stringify` on a key/value mapping, keys in insertion
order: `escape(k1)=escape(v1)&escape(k2)=escape(v2)&...`. -/
def qsStringify (ps : List (String × String)) : String :=
  String.intercalate "&" (ps.map (fun p => qsEscape p.1 ++ "=" ++ qsEscape p.2))

/-- The whitespace class of JavaScript regular expressions (`\s`). -/
def jsWhitespaceChars : List Char :=
  [Char.ofNat 9, Char.ofNat 10, Char.ofNat 11, Char.ofNat 12, Char.ofNat 13,
   Char.ofNat 32, Char.ofNat 160, Char.ofNat 5760, Char.ofNat 8192, Char.ofNat 8193,
   Char.ofNat 8194, Char.ofNat 8195, Char.ofNat 8196, Char.ofNat 8197, Char.ofNat 8198,
   Char.ofNat 8199, Char.ofNat 8200, Char.ofNat 8201, Char.ofNat 8202, Char.ofNat 8232,
   Char.ofNat 8233, Char.ofNat 8239, Char.ofNat 8287, Char.ofNat 12288, Char.ofNat 65279]

def stripNlWsGo : List Char → Bool → List Char
  | [], _ => []
  | c :: cs, stripping =>
    if c = Char.ofNat 10 then stripNlWsGo cs true
    else if stripping && jsWhitespaceChars.contains c then stripNlWsGo cs true
    else c :: stripNlWsGo cs false

/-- JavaScript `s.replace(/\n\s*/g, '')`: every newline, together with the
whitespace run that follows it, is removed. -/
def stripNlWs (s : String) : String := String.mk (stripNlWsGo s.data false)

/-- The polymorphic `nodeicoQueryString` option: in JavaScript it may be a
string, an object (a key→value mapping, keys in insertion order), or any other
(truthy) value, which the source rejects. -/
inductive QueryValue where
  | str (s : String)
  | obj (pairs : List (String × String))
  | other
deriving DecidableEq, Repr

/-- JavaScript truthiness of the `nodeicoQueryString` value: `undefined` and
`""` are falsy; objects and other non-string values modelled here are truthy. -/
def qTruthy : Option QueryValue → Bool
  | none => false
  | some (QueryValue.str s) => !s.isEmpty
  | some (QueryValue.obj _) => true
  | some QueryValue.other => true

/-- `typeof q === 'string'`. -/
def qIsString : Option QueryValue → Bool
  | some (QueryValue.str _) => true
  | _ => false

/-- `typeof q === 'object'`. -/
def qIsObject : Option QueryValue → Bool
  | some (QueryValue.obj _) => true
  | _ => false

/-- A configuration object: the union of the named fields destructured by the
generators. Absent fields are `none` (JavaScript `undefined`); unrecognized
keys of the JavaScript object are never read, so they need no model. -/
structure Opts where
  image : Option String := none
  alt : Option String := none
  url : Option String := none
  title : Option String := none
  left : Option String := none
  right : Option String := none
  color : Option String := none
  npmPackageName : Option String := none
  githubSlug : Option String := none
  saucelabsUsername : Option String := none
  saucelabsAuthToken : Option String := none
  codeshipProjectUUID : Option String := none
  codeshipProjectID : Option String := none
  sixtydevstipsID : Option String := none
  sixtydevstipsURL : Option String := none
  patreonUsername : Option String := none
  patreonURL : Option String := none
  opencollectiveUsername : Option String := none
  opencollectiveURL : Option String := none
  gratipayUsername : Option String := none
  gratipayURL : Option String := none
  flattrCode : Option String := none
  flattrUsername : Option String := none
  flattrURL : Option String := none
  paypalURL : Option String := none
  paypalButtonID : Option String := none
  paypalUsername : Option String := none
  cryptoURL : Option String := none
  bitcoinURL : Option String := none
  wishlistURL : Option String := none
  buymeacoffeeUsername : Option String := none
  buymeacoffeeURL : Option String := none
  liberapayUsername : Option String := none
  liberapayURL : Option String := none
  slackinURL : Option String := none
  gaTrackingID : Option String := none
  homepage : Option String := none
  facebookApplicationID : Option String := none
  facebookUsername : Option String := none
  twitterUsername : Option String := none
  githubUsername : Option String := none
  quoraUsername : Option String := none
  quoraRealname : Option String := none
  quoraCode : Option String := none
  nodeicoQueryString : Option QueryValue := none

/-- The shared renderer `badge({image, alt, url, title})`. -/
def badge (o : Opts) : Except BadgeError String :=
  if !truthy o.image then .error (.missingField "image is missing") else
  let image := o.image.getD ""
  let result :=
    if truthy o.alt then
      "<img src=\"" ++ image ++ "\" alt=\"" ++ o.alt.getD "" ++ "\" />"
    else
      "<img src=\"" ++ image ++ "\" />"
  let result :=
    if truthy o.url then
      (if truthy o.title then
        "<a href=\"" ++ o.url.getD "" ++ "\" title=\"" ++ o.title.getD "" ++ "\">"
       else
        "<a href=\"" ++ o.url.getD "" ++ "\">") ++ result ++ "</a>"
    else result
  .ok result

/-- `shields({left, right, color = 'yellow', alt, url, title})`. -/
def shields (o : Opts) : Except BadgeError String :=
  if !truthy o.left then .error (.missingField "left is missing") else
  if !truthy o.right then .error (.missingField "right is missing") else
  let left := o.left.getD ""
  let right := o.right.getD ""
  let color := o.color.getD "yellow"
  badge { image := some ("https://img.shields.io/badge/" ++ left ++ "-" ++ right ++ "-" ++ color ++ ".svg"),
          alt := o.alt, url := o.url, title := o.title }

/-- `npmversion({npmPackageName})`. -/
def npmversion (o : Opts) : Except BadgeError String :=
  if !truthy o.npmPackageName then .error (.missingField "npmPackageName is missing") else
  let npmPackageName := o.npmPackageName.getD ""
  badge { image := some ("https://img.shields.io/npm/v/" ++ npmPackageName ++ ".svg"),
          alt := some "NPM version",
          url := some ("https://npmjs.org/package/" ++ npmPackageName),
          title := some "View this project on NPM" }

/-- `npmdownloads({npmPackageName})`. -/
def npmdownloads (o : Opts) : Except BadgeError String :=
  if !truthy o.npmPackageName then .error (.missingField "npmPackageName is missing") else
  let npmPackageName := o.npmPackageName.getD ""
  badge { image := some ("https://img.shields.io/npm/dm/" ++ npmPackageName ++ ".svg"),
          alt := some "NPM downloads",
          url := some ("https://npmjs.org/package/" ++ npmPackageName),
          title := some "View this project on NPM" }

/-- `daviddm({githubSlug})`. -/
def daviddm (o : Opts) : Except BadgeError String :=
  if !truthy o.githubSlug then .error (.missingField "githubSlug is missing") else
  let githubSlug := o.githubSlug.getD ""
  badge { image := some ("https://img.shields.io/david/" ++ githubSlug ++ ".svg"),
          alt := some "Dependency Status",
          url := some ("https://david-dm.org/" ++ githubSlug),
          title := some "View the status of this project\x27s dependencies on DavidDM" }

/-- `daviddmdev({githubSlug})`. -/
def daviddmdev (o : Opts) : Except BadgeError String :=
  if !truthy o.githubSlug then .error (.missingField "githubSlug is missing") else
  let githubSlug := o.githubSlug.getD ""
  badge { image := some ("https://img.shields.io/david/dev/" ++ githubSlug ++ ".svg"),
          alt := some "Dev Dependency Status",
          url := some ("https://david-dm.org/" ++ githubSlug ++ "#info=devDependencies"),
          title := some "View the status of this project\x27s development dependencies on DavidDM" }

/-- `nodeico({npmPackageName, nodeicoQueryString})`. In the `QueryValue.other`
branch of `query` the value is never consulted (that shape was already
rejected by the type check above), so it is mapped to `none`. -/
def nodeico (o : Opts) : Except BadgeError String :=
  if !truthy o.npmPackageName then .error (.missingField "npmPackageName is missing") else
  if qTruthy o.nodeicoQueryString && !qIsString o.nodeicoQueryString && !qIsObject o.nodeicoQueryString then
    .error (.invalidType "nodeicoQueryString must be a string or an object")
  else
  let npmPackageName := o.npmPackageName.getD ""
  let image := "https://nodei.co/npm/" ++ npmPackageName ++ ".png"
  let query : Option String :=
    match o.nodeicoQueryString with
    | some (QueryValue.obj ps) => some (qsStringify ps)
    | some (QueryValue.str s) => some s
    | _ => none
  let image := if truthy query then image ++ "?" ++ query.getD "" else image
  badge { image := some image,
          alt := some "Nodei.co badge",
          url := some ("https://www.npmjs.com/package/" ++ npmPackageName),
          title := some "Nodei.co badge" }

/-- `saucelabsbm({saucelabsUsername, saucelabsAuthToken})`; `env` is the value
of the `SAUCELABS_AUTH_TOKEN` environment variable. -/
def saucelabsbm (o : Opts) (env : Option String) : Except BadgeError String :=
  if !truthy o.saucelabsUsername then .error (.missingField "saucelabsUsername is missing") else
  let saucelabsAuthToken := jsOr o.saucelabsAuthToken env
  if !truthy saucelabsAuthToken then .error (.missingField "saucelabsAuthToken is missing") else
  let saucelabsUsername := o.saucelabsUsername.getD ""
  badge { image := some ("https://saucelabs.com/browser-matrix/" ++ saucelabsUsername ++ ".svg?auth=" ++ escape (saucelabsAuthToken.getD "")),
          alt := some "Sauce Labs Browser Matrix",
          url := some ("https://saucelabs.com/u/" ++ saucelabsUsername),
          title := some "Check this project\x27s browser tests on Sauce Labs" }

/-- `saucelabs({saucelabsUsername, saucelabsAuthToken})`; `env` is the value
of the `SAUCELABS_AUTH_TOKEN` environment variable. The source body is
identical, line for line, to that of `saucelabsbm`. -/
def saucelabs (o : Opts) (env : Option String) : Except BadgeError String :=
  if !truthy o.saucelabsUsername then .error (.missingField "saucelabsUsername is missing") else
  let saucelabsAuthToken := jsOr o.saucelabsAuthToken env
  if !truthy saucelabsAuthToken then .error (.missingField "saucelabsAuthToken is missing") else
  let saucelabsUsername := o.saucelabsUsername.getD ""
  badge { image := some ("https://saucelabs.com/browser-matrix/" ++ saucelabsUsername ++ ".svg?auth=" ++ escape (saucelabsAuthToken.getD "")),
          alt := some "Sauce Labs Browser Matrix",
          url := some ("https://saucelabs.com/u/" ++ saucelabsUsername),
          title := some "Check this project\x27s browser tests on Sauce Labs" }

/-- `saucelabsbm.badgeInline = false` (metadata attached to the function). -/
def saucelabsbmBadgeInline : Bool := false

/-- `travisci({githubSlug})`. -/
def travisci (o : Opts) : Except BadgeError String :=
  if !truthy o.githubSlug then .error (.missingField "githubSlug is missing") else
  let githubSlug := o.githubSlug.getD ""
  badge { image := some ("https://img.shields.io/travis/" ++ githubSlug ++ "/master.svg"),
          alt := some "Travis CI Build Status",
          url := some ("http://travis-ci.org/" ++ githubSlug),
          title := some "Check this project\x27s build status on TravisCI" }

/-- `codeship({codeshipProjectUUID, codeshipProjectID})`. -/
def codeship (o : Opts) : Except BadgeError String :=
  if !truthy o.codeshipProjectUUID then .error (.missingField "codeshipProjectUUID is missing") else
  if !truthy o.codeshipProjectID then .error (.missingField "codeshipProjectID is missing") else
  badge { image := some ("https://img.shields.io/codeship/" ++ o.codeshipProjectUUID.getD "" ++ "/master.svg"),
          alt := some "Codeship Status",
          url := some ("https://www.codeship.io/projects/" ++ o.codeshipProjectID.getD ""),
          title := some "Check this project\x27s status on Codeship" }

/-- `coveralls({githubSlug})`. -/
def coveralls (o : Opts) : Except BadgeError String :=
  if !truthy o.githubSlug then .error (.missingField "githubSlug is missing") else
  let githubSlug := o.githubSlug.getD ""
  badge { image := some ("https://img.shields.io/coveralls/" ++ githubSlug ++ ".svg"),
          alt := some "Coveralls Coverage Status",
          url := some ("https://coveralls.io/r/" ++ githubSlug),
          title := some "View this project\x27s coverage on Coveralls" }

/-- `codeclimate({githubSlug})`. -/
def codeclimate (o : Opts) : Except BadgeError String :=
  if !truthy o.githubSlug then .error (.missingField "githubSlug is missing") else
  let githubSlug := o.githubSlug.getD ""
  badge { image := some ("https://img.shields.io/codeclimate/github/" ++ githubSlug ++ ".svg"),
          alt := some "Code Climate Rating",
          url := some ("https://codeclimate.com/github/" ++ githubSlug),
          title := some "View this project\x27s rating on Code Climate" }

/-- `bithound({githubSlug})`. -/
def bithound (o : Opts) : Except BadgeError String :=
  if !truthy o.githubSlug then .error (.missingField "githubSlug is missing") else
  let githubSlug := o.githubSlug.getD ""
  badge { image := some ("https://bithound.io/github/" ++ githubSlug ++ "/badges/score.svg"),
          alt := some "BitHound Score",
          url := some ("https://bithound.io/github/" ++ githubSlug),
          title := some "View this project\x27s score on BitHound" }

/-- `waffle({githubSlug})`. -/
def waffle (o : Opts) : Except BadgeError String :=
  if !truthy o.githubSlug then .error (.missingField "githubSlug is missing") else
  let githubSlug := o.githubSlug.getD ""
  let label := "ready"
  badge { image := some ("https://badge.waffle.io/" ++ githubSlug ++ ".png?label=" ++ escape label),
          alt := some "Stories in Ready",
          url := some ("http://waffle.io/" ++ githubSlug),
          title := some "View this project\x27s stories on Waffle.io" }

/-- `sixtydevstips({sixtydevstipsID, sixtydevstipsURL})`: the explicit URL
wins; otherwise it is synthesized from the ID; with neither, fail. -/
def sixtydevstips (o : Opts) : Except BadgeError String :=
  if !truthy o.sixtydevstipsURL && !truthy o.sixtydevstipsID then
    .error (.missingField "sixtydevstipsID is missing")
  else
  let sixtydevstipsURL :=
    if truthy o.sixtydevstipsURL then o.sixtydevstipsURL.getD ""
    else "https://tips.60devs.com/tip/" ++ o.sixtydevstipsID.getD ""
  badge { image := some "https://img.shields.io/badge/60devs-donate-yellow.svg",
          alt := some "60devs tips donate button",
          url := some sixtydevstipsURL,
          title := some "Donate to this project using 60devs tips" }

/-- `patreon({patreonUsername, patreonURL})`. -/
def patreon (o : Opts) : Except BadgeError String :=
  if !truthy o.patreonURL && !truthy o.patreonUsername then
    .error (.missingField "patreonUsername is missing")
  else
  let patreonURL :=
    if truthy o.patreonURL then o.patreonURL.getD ""
    else "https://patreon.com/" ++ o.patreonUsername.getD ""
  badge { image := some "https://img.shields.io/badge/patreon-donate-yellow.svg",
          alt := some "Patreon donate button",
          url := some patreonURL,
          title := some "Donate to this project using Patreon" }

/-- `opencollective({opencollectiveUsername, opencollectiveURL})`. -/
def opencollective (o : Opts) : Except BadgeError String :=
  if !truthy o.opencollectiveURL && !truthy o.opencollectiveUsername then
    .error (.missingField "opencollectiveUsername is missing")
  else
  let opencollectiveURL :=
    if truthy o.opencollectiveURL then o.opencollectiveURL.getD ""
    else "https://opencollective.com/" ++ o.opencollectiveUsername.getD ""
  badge { image := some "https://img.shields.io/badge/open%20collective-donate-yellow.svg",
          alt := some "Open Collective donate button",
          url := some opencollectiveURL,
          title := some "Donate to this project using Open Collective" }

/-- `gratipay({gratipayUsername, gratipayURL})`. -/
def gratipay (o : Opts) : Except BadgeError String :=
  if !truthy o.gratipayURL && !truthy o.gratipayUsername then
    .error (.missingField "gratipayUsername is missing")
  else
  let gratipayURL :=
    if truthy o.gratipayURL then o.gratipayURL.getD ""
    else "https://gratipay.com/" ++ o.gratipayUsername.getD ""
  badge { image := some "https://img.shields.io/badge/gratipay-donate-yellow.svg",
          alt := some "Gratipay donate button",
          url := some gratipayURL,
          title := some "Donate weekly to this project using Gratipay" }

/-- `flattr({flattrCode, flattrUsername, flattrURL})`: the explicit URL wins;
otherwise the username, otherwise the code; with none of them, fail. -/
def flattr (o : Opts) : Except BadgeError String :=
  if !truthy o.flattrURL && !truthy o.flattrUsername && !truthy o.flattrCode then
    .error (.missingField "flattrUsername/flattrCode is missing")
  else
  let flattrURL :=
    if truthy o.flattrURL then o.flattrURL.getD ""
    else if truthy o.flattrUsername then "https://flattr.com/profile/" ++ o.flattrUsername.getD ""
    else "https://flattr.com/thing/" ++ o.flattrCode.getD ""
  badge { image := some "https://img.shields.io/badge/flattr-donate-yellow.svg",
          alt := some "Flattr donate button",
          url := some flattrURL,
          title := some "Donate to this project using Flattr" }

/-- `paypal({paypalURL, paypalButtonID, paypalUsername})`: the explicit URL
wins; otherwise the (escaped) button id, otherwise the username; with none of
them, fail. -/
def paypal (o : Opts) : Except BadgeError String :=
  if !truthy o.paypalURL && !truthy o.paypalButtonID && !truthy o.paypalUsername then
    .error (.missingField "paypalURL, paypalButtonID, or paypalUsername is missing, at least one must exist")
  else
  let paypalURL :=
    if truthy o.paypalURL then o.paypalURL.getD ""
    else if truthy o.paypalButtonID then
      "https://www.paypal.com/cgi-bin/webscr?cmd=_s-xclick&amp;hosted_button_id=" ++ escape (o.paypalButtonID.getD "")
    else "https://paypal.me/" ++ o.paypalUsername.getD ""
  badge { image := some "https://img.shields.io/badge/paypal-donate-yellow.svg",
          alt := some "PayPal donate button",
          url := some paypalURL,
          title := some "Donate to this project using Paypal" }

/-- `crypto({cryptoURL, bitcoinURL})`: `const url = cryptoURL || bitcoinURL`. -/
def crypto (o : Opts) : Except BadgeError String :=
  let url := jsOr o.cryptoURL o.bitcoinURL
  if !truthy url then .error (.missingField "cryptoURL is missing") else
  badge { image := some "https://img.shields.io/badge/crypto-donate-yellow.svg",
          alt := some "crypto donate button",
          url := url,
          title := some "Donate to this project using Cryptocurrency" }

/-- `bitcoin(opts)`: forwards its whole input to `crypto`. -/
def bitcoin (o : Opts) : Except BadgeError String := crypto o

/-- `wishlist({wishlistURL})`. -/
def wishlist (o : Opts) : Except BadgeError String :=
  if !truthy o.wishlistURL then .error (.missingField "wishlistURL is missing") else
  badge { image := some "https://img.shields.io/badge/wishlist-donate-yellow.svg",
          alt := some "Wishlist browse button",
          url := o.wishlistURL,
          title := some "Buy an item on our wishlist for us" }

/-- `buymeacoffee({buymeacoffeeUsername, buymeacoffeeURL})`. -/
def buymeacoffee (o : Opts) : Except BadgeError String :=
  if !truthy o.buymeacoffeeURL && !truthy o.buymeacoffeeUsername then
    .error (.missingField "buymeacoffeeUsername is missing")
  else
  let buymeacoffeeURL :=
    if truthy o.buymeacoffeeURL then o.buymeacoffeeURL.getD ""
    else "https://buymeacoffee.com/" ++ o.buymeacoffeeUsername.getD ""
  badge { image := some "https://img.shields.io/badge/buy%20me%20a%20coffee-donate-yellow.svg",
          alt := some "Buy Me A Coffee donate button",
          url := some buymeacoffeeURL,
          title := some "Donate to this project using Buy Me A Coffee" }

/-- `liberapay({liberapayUsername, liberapayURL})`. -/
def liberapay (o : Opts) : Except BadgeError String :=
  if !truthy o.liberapayURL && !truthy o.liberapayUsername then
    .error (.missingField "liberapayUsername is missing")
  else
  let liberapayURL :=
    if truthy o.liberapayURL then o.liberapayURL.getD ""
    else "https://liberapay.com/" ++ o.liberapayUsername.getD ""
  badge { image := some "https://img.shields.io/badge/liberapay-donate-yellow.svg",
          alt := some "Liberapay donate button",
          url := some liberapayURL,
          title := some "Donate to this project using Liberapay" }

/-- `thanksapp({githubSlug, npmPackageName})`: the npm package name wins. -/
def thanksapp (o : Opts) : Except BadgeError String :=
  if !truthy o.githubSlug && !truthy o.npmPackageName then
    .error (.missingField "githubSlug and npmPackageName are missing, at least one is required")
  else
  let slug :=
    if truthy o.npmPackageName then "npm/" ++ o.npmPackageName.getD ""
    else "github/" ++ o.githubSlug.getD ""
  badge { image := some "https://img.shields.io/badge/thanksapp-donate-yellow.svg",
          alt := some "Thanks App donate button",
          url := some ("https://givethanks.app/donate/" ++ slug),
          title := some "Donate to this project using Thanks App" }

/-- `boostlab({githubSlug})`. -/
def boostlab (o : Opts) : Except BadgeError String :=
  if !truthy o.githubSlug then .error (.missingField "githubSlug is missing") else
  badge { image := some "https://img.shields.io/badge/boostlab-donate-yellow.svg",
          alt := some "Boost Lab donate button",
          url := some ("https://boost-lab.app/" ++ o.githubSlug.getD ""),
          title := some "Donate to this project using Boost Lab" }

/-- `slackinscript({slackinURL})`. -/
def slackinscript (o : Opts) : Except BadgeError String :=
  if !truthy o.slackinURL then .error (.missingField "slackinURL is missing") else
  .ok ("<script async defer src=\"" ++ o.slackinURL.getD "" ++ "/slackin.js\"></script>")

/-- `slackin({slackinURL})`. -/
def slackin (o : Opts) : Except BadgeError String :=
  if !truthy o.slackinURL then .error (.missingField "slackinURL is missing") else
  badge { image := some (o.slackinURL.getD "" ++ "/badge.svg"),
          alt := some "Slack community badge",
          url := o.slackinURL,
          title := some "Join this project\x27s slack community" }

/-- `gabeacon({gaTrackingID, githubSlug})`. -/
def gabeacon (o : Opts) : Except BadgeError String :=
  if !truthy o.gaTrackingID then .error (.missingField "gaTrackingID is missing") else
  if !truthy o.githubSlug then .error (.missingField "githubSlug is missing") else
  badge { image := some ("https://ga-beacon.appspot.com/" ++ o.gaTrackingID.getD "" ++ "/" ++ o.githubSlug.getD ""),
          alt := some "Google Analytics beacon image",
          url := some "https://github.com/igrigorik/ga-beacon",
          title := some "Get Google Analytics for your project" }

/-- `googleplusone({homepage})`. -/
def googleplusone (o : Opts) : Except BadgeError String :=
  if !truthy o.homepage then .error (.missingField "homepage is missing") else
  .ok ("<span class=\"g-plusone\" data-size=\"medium\" data-href=\"" ++ o.homepage.getD "" ++ "\"></span><script>(function() \x7bvar po = document.createElement(\x27script\x27); po.type = \x27text/javascript\x27; po.async = true; po.src = \x27//apis.google.com/js/plusone.js\x27; var s = document.getElementsByTagName(\x27script\x27)[0]; s.parentNode.insertBefore(po, s);\x7d)();</script>")

/-- `redditsubmit({homepage})`. -/
def redditsubmit (o : Opts) : Except BadgeError String :=
  if !truthy o.homepage then .error (.missingField "homepage is missing") else
  .ok ("<script>reddit_url=\"" ++ o.homepage.getD "" ++ "\"</script><script src=\"https://en.reddit.com/static/button/button1.js\"></script>")

/-- `hackernewssubmit({homepage})`. -/
def hackernewssubmit (o : Opts) : Except BadgeError String :=
  if !truthy o.homepage then .error (.missingField "homepage is missing") else
  .ok ("<a href=\"https://news.ycombinator.com/submit\" class=\"hn-button\" data-url=\"" ++ o.homepage.getD "" ++ "\" data-count=\"horizontal\">Vote on Hacker News</a><script>var HN=[];HN.factory=function(e)\x7breturn function()\x7bHN.push([e].concat(Array.prototype.slice.call(arguments,0)))\x7d;\x7d,HN.on=HN.factory(\"on\"),HN.once=HN.factory(\"once\"),HN.off=HN.factory(\"off\"),HN.emit=HN.factory(\"emit\"),HN.load=function()\x7bvar e=\"hn-button.js\";if(document.getElementById(e))return;var t=document.createElement(\"script\");t.id=e,t.src=\"https://hn-button.herokuapp.com/hn-button.js\";var n=document.getElementsByTagName(\"script\")[0];n.parentNode.insertBefore(t,n)\x7d,HN.load();</script>")

/-- `facebooklike({homepage, facebookApplicationID})`; `env` is the value of
the `FACEBOOK_APPLICATION_ID` environment variable. -/
def facebooklike (o : Opts) (env : Option String) : Except BadgeError String :=
  if !truthy o.homepage then .error (.missingField "homepage is missing") else
  let facebookApplicationID := jsOr o.facebookApplicationID env
  if !truthy facebookApplicationID then .error (.missingField "facebookApplicationID is missing") else
  .ok ("<iframe src=\"https://www.facebook.com/plugins/like.php?href=" ++ escape (o.homepage.getD "") ++ "&amp;send=false&amp;layout=button_count&amp;width=450&amp;show_faces=false&amp;font&amp;colorscheme=light&amp;action=like&amp;height=21&amp;appId=" ++ escape (facebookApplicationID.getD "") ++ "\" scrolling=\"no\" frameborder=\"0\" style=\"border:none; overflow:hidden; width:450px; height:21px;\" allowTransparency=\"true\"></iframe>")

/-- `facebookfollow({facebookUsername, facebookApplicationID})`; `env` is the
value of the `FACEBOOK_APPLICATION_ID` environment variable. -/
def facebookfollow (o : Opts) (env : Option String) : Except BadgeError String :=
  if !truthy o.facebookUsername then .error (.missingField "facebookUsername is missing") else
  let facebookApplicationID := jsOr o.facebookApplicationID env
  if !truthy facebookApplicationID then .error (.missingField "facebookApplicationID is missing") else
  .ok ("<iframe src=\"https://www.facebook.com/plugins/follow.php?href=https%3A%2F%2Fwww.facebook.com%2F" ++ escape (o.facebookUsername.getD "") ++ "&amp;layout=button_count&amp;show_faces=false&amp;colorscheme=light&amp;font&amp;width=450&amp;appId=" ++ escape (facebookApplicationID.getD "") ++ "\" scrolling=\"no\" frameborder=\"0\" style=\"border:none; overflow:hidden; width:450px; height: 20px;\" allowTransparency=\"true\"></iframe>")

/-- `twittertweet({twitterUsername})`. -/
def twittertweet (o : Opts) : Except BadgeError String :=
  if !truthy o.twitterUsername then .error (.missingField "twitterUsername is missing") else
  .ok ("<a href=\"https://twitter.com/share\" class=\"twitter-share-button\" data-via=\"" ++ o.twitterUsername.getD "" ++ "\" data-related=\"" ++ o.twitterUsername.getD "" ++ "\">Tweet</a><script>!function(d,s,id)\x7bvar js,fjs=d.getElementsByTagName(s)[0];if(!d.getElementById(id))\x7bjs=d.createElement(s);js.id=id;js.src=\"https://platform.twitter.com/widgets.js\";fjs.parentNode.insertBefore(js,fjs);\x7d\x7d(document,\"script\",\"twitter-wjs\");</script>")

/-- `twitterfollow({twitterUsername})`. -/
def twitterfollow (o : Opts) : Except BadgeError String :=
  if !truthy o.twitterUsername then .error (.missingField "twitterUsername is missing") else
  .ok ("<a href=\"https://twitter.com/" ++ escape (o.twitterUsername.getD "") ++ "\" class=\"twitter-follow-button\" data-show-count=\"false\">Follow @" ++ o.twitterUsername.getD "" ++ "</a><script>!function(d,s,id)\x7bvar js,fjs=d.getElementsByTagName(s)[0];if(!d.getElementById(id))\x7bjs=d.createElement(s);js.id=id;js.src=\"https://platform.twitter.com/widgets.js\";fjs.parentNode.insertBefore(js,fjs);\x7d\x7d(document,\"script\",\"twitter-wjs\");</script>")

/-- `githubfollow({githubUsername})`. -/
def githubfollow (o : Opts) : Except BadgeError String :=
  if !truthy o.githubUsername then .error (.missingField "githubUsername is missing") else
  .ok ("<iframe src=\"https://ghbtns.com/github-btn.html?user=" ++ escape (o.githubUsername.getD "") ++ "&amp;type=follow&amp;count=true\" allowtransparency=\"true\" frameborder=\"0\" scrolling=\"0\" width=\"165\" height=\"20\"></iframe>")

/-- `githubstar({githubSlug})`: splits the slug on `/` and rejects it when
either half is falsy. -/
def githubstar (o : Opts) : Except BadgeError String :=
  if !truthy o.githubSlug then .error (.missingField "githubSlug is missing") else
  let split := jsSplit (o.githubSlug.getD "") (Char.ofNat 47)
  let githubUsername := split.getD 0 ""
  let githubRepository := split.getD 1 ""
  if githubUsername.isEmpty || githubRepository.isEmpty then .error (.invalidSlug "githubSlug is invalid") else
  .ok ("<iframe src=\"https://ghbtns.com/github-btn.html?user=" ++ escape githubUsername ++ "&amp;repo=" ++ escape githubRepository ++ "&amp;type=watch&amp;count=true\" allowtransparency=\"true\" frameborder=\"0\" scrolling=\"0\" width=\"110\" height=\"20\"></iframe>")

/-- `quorafollow({quoraUsername, quoraRealname, quoraCode})`. -/
def quorafollow (o : Opts) : Except BadgeError String :=
  if !truthy o.quoraUsername then .error (.missingField "quoraUsername is missing") else
  let quoraUsername := o.quoraUsername.getD ""
  let quoraRealname :=
    if truthy o.quoraRealname then o.quoraRealname.getD ""
    else quoraUsername.map (fun c => if c = Char.ofNat 45 then Char.ofNat 32 else c)
  let quoraCode := if truthy o.quoraCode then o.quoraCode.getD "" else "7N31XJs"
  .ok (stripNlWs ("\n\t\t<span data-name=\"" ++ quoraUsername ++ "\">\n\t\t\tFollow <a href=\"http://www.quora.com/" ++ quoraUsername ++ "\">" ++ quoraRealname ++ "</a> on <a href=\"http://www.quora.com\">Quora</a>\n\t\t\t<script src=\"https://www.quora.com/widgets/follow?embed_code=" ++ escape quoraCode ++ "\"></script>\n\t\t</span>"))

/-! ## Validation properties shared by the generators -/

/-- The generator fails with the given missing-field error whenever its first
required field is falsy (absent or empty). -/
abbrev failsFirst (g : Opts → Except BadgeError String) (sel : Opts → Option String) (msg : String) : Prop :=
  ∀ o, truthy (sel o) = false → g o = .error (.missingField msg)

/-- The generator fails with the given missing-field error whenever its second
required field is falsy while the first one is truthy. -/
abbrev failsSecond (g : Opts → Except BadgeError String) (sel₁ sel₂ : Opts → Option String) (msg : String) : Prop :=
  ∀ o, truthy (sel₁ o) = true → truthy (sel₂ o) = false → g o = .error (.missingField msg)

/-- The generator fails with the given missing-field error whenever both of
its two alternative fields are falsy. -/
abbrev failsBoth (g : Opts → Except BadgeError String) (sel₁ sel₂ : Opts → Option String) (msg : String) : Prop :=
  ∀ o, truthy (sel₁ o) = false → truthy (sel₂ o) = false → g o = .error (.missingField msg)

/-- The generator fails with the given missing-field error whenever all three
of its alternative fields are falsy. -/
abbrev failsAllThree (g : Opts → Except BadgeError String) (sel₁ sel₂ sel₃ : Opts → Option String) (msg : String) : Prop :=
  ∀ o, truthy (sel₁ o) = false → truthy (sel₂ o) = false → truthy (sel₃ o) = false →
    g o = .error (.missingField msg)

/-- With its (single) required field truthy, the generator never raises a
missing-field error. -/
abbrev noMissingGiven1 (g : Opts → Except BadgeError String) (sel : Opts → Option String) : Prop :=
  ∀ o, truthy (sel o) = true → ∀ m, g o ≠ .error (.missingField m)

/-- With both required fields truthy, the generator never raises a
missing-field error. -/
abbrev noMissingGiven2 (g : Opts → Except BadgeError String) (sel₁ sel₂ : Opts → Option String) : Prop :=
  ∀ o, truthy (sel₁ o) = true → truthy (sel₂ o) = true → ∀ m, g o ≠ .error (.missingField m)

/-- With at least one of its two alternative fields truthy, the generator
never raises a missing-field error. -/
abbrev noMissingEither (g : Opts → Except BadgeError String) (sel₁ sel₂ : Opts → Option String) : Prop :=
  ∀ o, truthy (sel₁ o) = true ∨ truthy (sel₂ o) = true → ∀ m, g o ≠ .error (.missingField m)

/-- With at least one of its three alternative fields truthy, the generator
never raises a missing-field error. -/
abbrev noMissingAny3 (g : Opts → Except BadgeError String) (sel₁ sel₂ sel₃ : Opts → Option String) : Prop :=
  ∀ o, truthy (sel₁ o) = true ∨ truthy (sel₂ o) = true ∨ truthy (sel₃ o) = true →
    ∀ m, g o ≠ .error (.missingField m)

/-! ## Per-generator validation lemmas -/

theorem badge_missing_image : failsFirst badge (fun o => o.image) "image is missing" :=
  fun _ h => by simp [badge, h]

theorem badge_ok : noMissingGiven1 badge (fun o => o.image) :=
  fun _ h _ => by simp [badge, h]

theorem shields_missing_left : failsFirst shields (fun o => o.left) "left is missing" :=
  fun _ h => by simp [shields, h]

theorem shields_missing_right : failsSecond shields (fun o => o.left) (fun o => o.right) "right is missing" :=
  fun _ h1 h2 => by simp [shields, h1, h2]

theorem shields_ok : noMissingGiven2 shields (fun o => o.left) (fun o => o.right) :=
  fun _ h1 h2 _ => by simp [shields, badge, h1, h2]

theorem npmversion_missing : failsFirst npmversion (fun o => o.npmPackageName) "npmPackageName is missing" :=
  fun _ h => by simp [npmversion, h]

theorem npmversion_ok : noMissingGiven1 npmversion (fun o => o.npmPackageName) :=
  fun _ h _ => by simp [npmversion, badge, h]

theorem npmdownloads_missing : failsFirst npmdownloads (fun o => o.npmPackageName) "npmPackageName is missing" :=
  fun _ h => by simp [npmdownloads, h]

theorem npmdownloads_ok : noMissingGiven1 npmdownloads (fun o => o.npmPackageName) :=
  fun _ h _ => by simp [npmdownloads, badge, h]

theorem daviddm_missing : failsFirst daviddm (fun o => o.githubSlug) "githubSlug is missing" :=
  fun _ h => by simp [daviddm, h]

theorem daviddm_ok : noMissingGiven1 daviddm (fun o => o.githubSlug) :=
  fun _ h _ => by simp [daviddm, badge, h]

theorem daviddmdev_missing : failsFirst daviddmdev (fun o => o.githubSlug) "githubSlug is missing" :=
  fun _ h => by simp [daviddmdev, h]

theorem daviddmdev_ok : noMissingGiven1 daviddmdev (fun o => o.githubSlug) :=
  fun _ h _ => by simp [daviddmdev, badge, h]

theorem nodeico_missing : failsFirst nodeico (fun o => o.npmPackageName) "npmPackageName is missing" :=
  fun _ h => by simp [nodeico, h]

theorem nodeico_ok : noMissingGiven1 nodeico (fun o => o.npmPackageName) := by
  intro o h m
  rcases hq : o.nodeicoQueryString with _ | q
  · simp [nodeico, badge, qTruthy, qIsString, qIsObject, h, hq]
  · rcases q with s | ps | _
    · by_cases hs : s = ""
      · subst hs
        simp [nodeico, badge, qTruthy, qIsString, qIsObject, h, hq]
      · simp [nodeico, badge, qTruthy, qIsString, qIsObject, h, hq, hs]
    · by_cases hps : qsStringify ps = ""
      · simp [nodeico, badge, qTruthy, qIsString, qIsObject, h, hq, hps]
      · simp [nodeico, badge, qTruthy, qIsString, qIsObject, h, hq, hps]
    · simp [nodeico, qTruthy, qIsString, qIsObject, h, hq]

theorem saucelabsbm_missing_username :
    failsFirst (fun o => saucelabsbm o none) (fun o => o.saucelabsUsername) "saucelabsUsername is missing" :=
  fun _ h => by simp [saucelabsbm, h]

theorem saucelabsbm_missing_token :
    failsSecond (fun o => saucelabsbm o none) (fun o => o.saucelabsUsername) (fun o => o.saucelabsAuthToken)
      "saucelabsAuthToken is missing" :=
  fun _ h1 h2 => by simp [saucelabsbm, jsOr, h1, h2]

theorem saucelabsbm_ok :
    noMissingGiven2 (fun o => saucelabsbm o none) (fun o => o.saucelabsUsername) (fun o => o.saucelabsAuthToken) :=
  fun _ h1 h2 _ => by simp [saucelabsbm, jsOr, badge, h1, h2]

theorem saucelabs_missing_username :
    failsFirst (fun o => saucelabs o none) (fun o => o.saucelabsUsername) "saucelabsUsername is missing" :=
  fun _ h => by simp [saucelabs, h]

theorem saucelabs_missing_token :
    failsSecond (fun o => saucelabs o none) (fun o => o.saucelabsUsername) (fun o => o.saucelabsAuthToken)
      "saucelabsAuthToken is missing" :=
  fun _ h1 h2 => by simp [saucelabs, jsOr, h1, h2]

theorem saucelabs_ok :
    noMissingGiven2 (fun o => saucelabs o none) (fun o => o.saucelabsUsername) (fun o => o.saucelabsAuthToken) :=
  fun _ h1 h2 _ => by simp [saucelabs, jsOr, badge, h1, h2]

theorem travisci_missing : failsFirst travisci (fun o => o.githubSlug) "githubSlug is missing" :=
  fun _ h => by simp [travisci, h]

theorem travisci_ok : noMissingGiven1 travisci (fun o => o.githubSlug) :=
  fun _ h _ => by simp [travisci, badge, h]

theorem codeship_missing_uuid :
    failsFirst codeship (fun o => o.codeshipProjectUUID) "codeshipProjectUUID is missing" :=
  fun _ h => by simp [codeship, h]

theorem codeship_missing_id :
    failsSecond codeship (fun o => o.codeshipProjectUUID) (fun o => o.codeshipProjectID)
      "codeshipProjectID is missing" :=
  fun _ h1 h2 => by simp [codeship, h1, h2]

theorem codeship_ok :
    noMissingGiven2 codeship (fun o => o.codeshipProjectUUID) (fun o => o.codeshipProjectID) :=
  fun _ h1 h2 _ => by simp [codeship, badge, h1, h2]

theorem coveralls_missing : failsFirst coveralls (fun o => o.githubSlug) "githubSlug is missing" :=
  fun _ h => by simp [coveralls, h]

theorem coveralls_ok : noMissingGiven1 coveralls (fun o => o.githubSlug) :=
  fun _ h _ => by simp [coveralls, badge, h]

theorem codeclimate_missing : failsFirst codeclimate (fun o => o.githubSlug) "githubSlug is missing" :=
  fun _ h => by simp [codeclimate, h]

theorem codeclimate_ok : noMissingGiven1 codeclimate (fun o => o.githubSlug) :=
  fun _ h _ => by simp [codeclimate, badge, h]

theorem bithound_missing : failsFirst bithound (fun o => o.githubSlug) "githubSlug is missing" :=
  fun _ h => by simp [bithound, h]

theorem bithound_ok : noMissingGiven1 bithound (fun o => o.githubSlug) :=
  fun _ h _ => by simp [bithound, badge, h]

theorem waffle_missing : failsFirst waffle (fun o => o.githubSlug) "githubSlug is missing" :=
  fun _ h => by simp [waffle, h]

theorem waffle_ok : noMissingGiven1 waffle (fun o => o.githubSlug) :=
  fun _ h _ => by simp [waffle, badge, h]

theorem sixtydevstips_missing :
    failsBoth sixtydevstips (fun o => o.sixtydevstipsURL) (fun o => o.sixtydevstipsID)
      "sixtydevstipsID is missing" :=
  fun _ h1 h2 => by simp [sixtydevstips, h1, h2]

theorem sixtydevstips_ok :
    noMissingEither sixtydevstips (fun o => o.sixtydevstipsURL) (fun o => o.sixtydevstipsID) := by
  intro o h m
  rcases h with h | h <;> simp [sixtydevstips, badge, h]

theorem patreon_missing :
    failsBoth patreon (fun o => o.patreonURL) (fun o => o.patreonUsername) "patreonUsername is missing" :=
  fun _ h1 h2 => by simp [patreon, h1, h2]

theorem patreon_ok :
    noMissingEither patreon (fun o => o.patreonURL) (fun o => o.patreonUsername) := by
  intro o h m
  rcases h with h | h <;> simp [patreon, badge, h]

theorem opencollective_missing :
    failsBoth opencollective (fun o => o.opencollectiveURL) (fun o => o.opencollectiveUsername)
      "opencollectiveUsername is missing" :=
  fun _ h1 h2 => by simp [opencollective, h1, h2]

theorem opencollective_ok :
    noMissingEither opencollective (fun o => o.opencollectiveURL) (fun o => o.opencollectiveUsername) := by
  intro o h m
  rcases h with h | h <;> simp [opencollective, badge, h]

theorem gratipay_missing :
    failsBoth gratipay (fun o => o.gratipayURL) (fun o => o.gratipayUsername) "gratipayUsername is missing" :=
  fun _ h1 h2 => by simp [gratipay, h1, h2]

theorem gratipay_ok :
    noMissingEither gratipay (fun o => o.gratipayURL) (fun o => o.gratipayUsername) := by
  intro o h m
  rcases h with h | h <;> simp [gratipay, badge, h]

theorem flattr_missing :
    failsAllThree flattr (fun o => o.flattrURL) (fun o => o.flattrUsername) (fun o => o.flattrCode)
      "flattrUsername/flattrCode is missing" :=
  fun _ h1 h2 h3 => by simp [flattr, h1, h2, h3]

theorem flattr_ok :
    noMissingAny3 flattr (fun o => o.flattrURL) (fun o => o.flattrUsername) (fun o => o.flattrCode) := by
  intro o h m
  rcases h with h | h | h <;> simp [flattr, badge, h]

theorem paypal_missing :
    failsAllThree paypal (fun o => o.paypalURL) (fun o => o.paypalButtonID) (fun o => o.paypalUsername)
      "paypalURL, paypalButtonID, or paypalUsername is missing, at least one must exist" :=
  fun _ h1 h2 h3 => by simp [paypal, h1, h2, h3]

theorem paypal_ok :
    noMissingAny3 paypal (fun o => o.paypalURL) (fun o => o.paypalButtonID) (fun o => o.paypalUsername) := by
  intro o h m
  rcases h with h | h | h <;> simp [paypal, badge, h]

theorem crypto_missing :
    failsBoth crypto (fun o => o.cryptoURL) (fun o => o.bitcoinURL) "cryptoURL is missing" :=
  fun _ h1 h2 => by simp [crypto, jsOr, h1, h2]

theorem crypto_ok :
    noMissingEither crypto (fun o => o.cryptoURL) (fun o => o.bitcoinURL) := by
  intro o h m
  cases ha : truthy o.cryptoURL with
  | true => simp [crypto, jsOr, badge, ha]
  | false =>
    rcases h with h | h
    · rw [ha] at h
      exact absurd h (by decide)
    · simp [crypto, jsOr, badge, ha, h]

theorem bitcoin_missing :
    failsBoth bitcoin (fun o => o.cryptoURL) (fun o => o.bitcoinURL) "cryptoURL is missing" :=
  fun o h1 h2 => crypto_missing o h1 h2

theorem bitcoin_ok :
    noMissingEither bitcoin (fun o => o.cryptoURL) (fun o => o.bitcoinURL) :=
  fun o h m => crypto_ok o h m

theorem wishlist_missing : failsFirst wishlist (fun o => o.wishlistURL) "wishlistURL is missing" :=
  fun _ h => by simp [wishlist, h]

theorem wishlist_ok : noMissingGiven1 wishlist (fun o => o.wishlistURL) :=
  fun _ h _ => by simp [wishlist, badge, h]

theorem buymeacoffee_missing :
    failsBoth buymeacoffee (fun o => o.buymeacoffeeURL) (fun o => o.buymeacoffeeUsername)
      "buymeacoffeeUsername is missing" :=
  fun _ h1 h2 => by simp [buymeacoffee, h1, h2]

theorem buymeacoffee_ok :
    noMissingEither buymeacoffee (fun o => o.buymeacoffeeURL) (fun o => o.buymeacoffeeUsername) := by
  intro o h m
  rcases h with h | h <;> simp [buymeacoffee, badge, h]

theorem liberapay_missing :
    failsBoth liberapay (fun o => o.liberapayURL) (fun o => o.liberapayUsername) "liberapayUsername is missing" :=
  fun _ h1 h2 => by simp [liberapay, h1, h2]

theorem liberapay_ok :
    noMissingEither liberapay (fun o => o.liberapayURL) (fun o => o.liberapayUsername) := by
  intro o h m
  rcases h with h | h <;> simp [liberapay, badge, h]

theorem thanksapp_missing :
    failsBoth thanksapp (fun o => o.githubSlug) (fun o => o.npmPackageName)
      "githubSlug and npmPackageName are missing, at least one is required" :=
  fun _ h1 h2 => by simp [thanksapp, h1, h2]

theorem thanksapp_ok :
    noMissingEither thanksapp (fun o => o.githubSlug) (fun o => o.npmPackageName) := by
  intro o h m
  rcases h with h | h <;> simp [thanksapp, badge, h]

theorem boostlab_missing : failsFirst boostlab (fun o => o.githubSlug) "githubSlug is missing" :=
  fun _ h => by simp [boostlab, h]

theorem boostlab_ok : noMissingGiven1 boostlab (fun o => o.githubSlug) :=
  fun _ h _ => by simp [boostlab, badge, h]

theorem slackinscript_missing : failsFirst slackinscript (fun o => o.slackinURL) "slackinURL is missing" :=
  fun _ h => by simp [slackinscript, h]

theorem slackinscript_ok : noMissingGiven1 slackinscript (fun o => o.slackinURL) :=
  fun _ h _ => by simp [slackinscript, h]

theorem slackin_missing : failsFirst slackin (fun o => o.slackinURL) "slackinURL is missing" :=
  fun _ h => by simp [slackin, h]

theorem slackin_ok : noMissingGiven1 slackin (fun o => o.slackinURL) := by
  intro o h m
  have hg : (o.slackinURL.getD "" == "") = false := beq_empty_false_of_truthy _ h
  simp [slackin, badge, h, hg]

theorem gabeacon_missing_tracking :
    failsFirst gabeacon (fun o => o.gaTrackingID) "gaTrackingID is missing" :=
  fun _ h => by simp [gabeacon, h]

theorem gabeacon_missing_slug :
    failsSecond gabeacon (fun o => o.gaTrackingID) (fun o => o.githubSlug) "githubSlug is missing" :=
  fun _ h1 h2 => by simp [gabeacon, h1, h2]

theorem gabeacon_ok : noMissingGiven2 gabeacon (fun o => o.gaTrackingID) (fun o => o.githubSlug) :=
  fun _ h1 h2 _ => by simp [gabeacon, badge, h1, h2]

theorem googleplusone_missing : failsFirst googleplusone (fun o => o.homepage) "homepage is missing" :=
  fun _ h => by simp [googleplusone, h]

theorem googleplusone_ok : noMissingGiven1 googleplusone (fun o => o.homepage) :=
  fun _ h _ => by simp [googleplusone, h]

theorem redditsubmit_missing : failsFirst redditsubmit (fun o => o.homepage) "homepage is missing" :=
  fun _ h => by simp [redditsubmit, h]

theorem redditsubmit_ok : noMissingGiven1 redditsubmit (fun o => o.homepage) :=
  fun _ h _ => by simp [redditsubmit, h]

theorem hackernewssubmit_missing : failsFirst hackernewssubmit (fun o => o.homepage) "homepage is missing" :=
  fun _ h => by simp [hackernewssubmit, h]

theorem hackernewssubmit_ok : noMissingGiven1 hackernewssubmit (fun o => o.homepage) :=
  fun _ h _ => by simp [hackernewssubmit, h]

theorem facebooklike_missing_homepage :
    failsFirst (fun o => facebooklike o none) (fun o => o.homepage) "homepage is missing" :=
  fun _ h => by simp [facebooklike, h]

theorem facebooklike_missing_appid :
    failsSecond (fun o => facebooklike o none) (fun o => o.homepage) (fun o => o.facebookApplicationID)
      "facebookApplicationID is missing" :=
  fun _ h1 h2 => by simp [facebooklike, jsOr, h1, h2]

theorem facebooklike_ok :
    noMissingGiven2 (fun o => facebooklike o none) (fun o => o.homepage) (fun o => o.facebookApplicationID) :=
  fun _ h1 h2 _ => by simp [facebooklike, jsOr, h1, h2]

theorem facebookfollow_missing_username :
    failsFirst (fun o => facebookfollow o none) (fun o => o.facebookUsername) "facebookUsername is missing" :=
  fun _ h => by simp [facebookfollow, h]

theorem facebookfollow_missing_appid :
    failsSecond (fun o => facebookfollow o none) (fun o => o.facebookUsername) (fun o => o.facebookApplicationID)
      "facebookApplicationID is missing" :=
  fun _ h1 h2 => by simp [facebookfollow, jsOr, h1, h2]

theorem facebookfollow_ok :
    noMissingGiven2 (fun o => facebookfollow o none) (fun o => o.facebookUsername) (fun o => o.facebookApplicationID) :=
  fun _ h1 h2 _ => by simp [facebookfollow, jsOr, h1, h2]

theorem twittertweet_missing : failsFirst twittertweet (fun o => o.twitterUsername) "twitterUsername is missing" :=
  fun _ h => by simp [twittertweet, h]

theorem twittertweet_ok : noMissingGiven1 twittertweet (fun o => o.twitterUsername) :=
  fun _ h _ => by simp [twittertweet, h]

theorem twitterfollow_missing : failsFirst twitterfollow (fun o => o.twitterUsername) "twitterUsername is missing" :=
  fun _ h => by simp [twitterfollow, h]

theorem twitterfollow_ok : noMissingGiven1 twitterfollow (fun o => o.twitterUsername) :=
  fun _ h _ => by simp [twitterfollow, h]

theorem githubfollow_missing : failsFirst githubfollow (fun o => o.githubUsername) "githubUsername is missing" :=
  fun _ h => by simp [githubfollow, h]

theorem githubfollow_ok : noMissingGiven1 githubfollow (fun o => o.githubUsername) :=
  fun _ h _ => by simp [githubfollow, h]

theorem githubstar_missing : failsFirst githubstar (fun o => o.githubSlug) "githubSlug is missing" :=
  fun _ h => by simp [githubstar, h]

theorem githubstar_ok : noMissingGiven1 githubstar (fun o => o.githubSlug) := by
  intro o h m
  by_cases h0 : (jsSplit (o.githubSlug.getD "") (Char.ofNat 47))[0]?.getD "" = ""
  · simp [githubstar, h, h0]
  · by_cases h1 : (jsSplit (o.githubSlug.getD "") (Char.ofNat 47))[1]?.getD "" = ""
    · simp [githubstar, h, h0, h1]
    · simp [githubstar, h, h0, h1]

theorem quorafollow_missing : failsFirst quorafollow (fun o => o.quoraUsername) "quoraUsername is missing" :=
  fun _ h => by simp [quorafollow, h]

theorem quorafollow_ok : noMissingGiven1 quorafollow (fun o => o.quoraUsername) :=
  fun _ h _ => by simp [quorafollow, h]

/-! ## Claim theorems -/

/-- C1: For every call to `badge` with a non-empty image and no (truthy) url:
with `alt` absent/empty the result is exactly `<img src="{image}" />`, and with
`alt` present it is exactly `<img src="{image}" alt="{alt}" />`; with a truthy
`url` the `<img>` fragment is wrapped in `<a href="{url}">...</a>`, and the
`<a>` tag carries a `title="{title}"` attribute exactly when `title` is
present (truthy). -/
theorem badge_markup (image : String) (alt url title : Option String) (himg : image ≠ "") :
    (truthy alt = false → truthy url = false →
      badge { image := some image, alt := alt, url := url, title := title } =
        .ok ("<img src=\"" ++ image ++ "\" />")) ∧
    (truthy alt = true → truthy url = false →
      badge { image := some image, alt := alt, url := url, title := title } =
        .ok ("<img src=\"" ++ image ++ "\" alt=\"" ++ alt.getD "" ++ "\" />")) ∧
    (truthy url = true → truthy title = false →
      badge { image := some image, alt := alt, url := url, title := title } =
        .ok ("<a href=\"" ++ url.getD "" ++ "\">" ++
          (if truthy alt then "<img src=\"" ++ image ++ "\" alt=\"" ++ alt.getD "" ++ "\" />"
           else "<img src=\"" ++ image ++ "\" />") ++ "</a>")) ∧
    (truthy url = true → truthy title = true →
      badge { image := some image, alt := alt, url := url, title := title } =
        .ok ("<a href=\"" ++ url.getD "" ++ "\" title=\"" ++ title.getD "" ++ "\">" ++
          (if truthy alt then "<img src=\"" ++ image ++ "\" alt=\"" ++ alt.getD "" ++ "\" />"
           else "<img src=\"" ++ image ++ "\" />") ++ "</a>")) := by
  refine ⟨?_, ?_, ?_, ?_⟩ <;> intro h1 h2 <;> simp [badge, himg, h1, h2]

/-- Witness for C1, at the spec's own example: `badge({image: "x.png",
url: "http://y"})` gives `<a href="http://y"><img src="x.png" /></a>`. -/
theorem badge_markup_witness :
    badge { image := some "x.png", url := some "http://y" } =
      Except.ok "<a href=\"http://y\"><img src=\"x.png\" /></a>" := by
  have h := (badge_markup "x.png" none (some "http://y") none (by decide)).2.2.1 rfl rfl
  simpa using h

/-- C2: for every generator with required fields (including `badge`, whose
`image` is required): a call with a required field absent or empty fails with
the missing-field error naming that field, required fields are checked in
declared parameter order, short-circuiting on the first missing one, and a
call with all required fields truthy never raises a missing-field error.
For the generators with a fallback chain of alternative fields the
alternatives are jointly required: all of them absent/empty fails with the
source's missing-field error, and any one of them truthy avoids every
missing-field error.  The generators that consult an environment variable
(`saucelabs`, `saucelabsbm`, `facebooklike`, `facebookfollow`) are taken with
that variable unset. -/
theorem generators_required_fields :
    (failsFirst badge (fun o => o.image) "image is missing" ∧
      noMissingGiven1 badge (fun o => o.image)) ∧
    (failsFirst codeship (fun o => o.codeshipProjectUUID) "codeshipProjectUUID is missing" ∧
      failsSecond codeship (fun o => o.codeshipProjectUUID) (fun o => o.codeshipProjectID)
        "codeshipProjectID is missing" ∧
      noMissingGiven2 codeship (fun o => o.codeshipProjectUUID) (fun o => o.codeshipProjectID)) ∧
    (failsFirst shields (fun o => o.left) "left is missing" ∧
      failsSecond shields (fun o => o.left) (fun o => o.right) "right is missing" ∧
      noMissingGiven2 shields (fun o => o.left) (fun o => o.right)) ∧
    (failsFirst npmversion (fun o => o.npmPackageName) "npmPackageName is missing" ∧
      noMissingGiven1 npmversion (fun o => o.npmPackageName)) ∧
    (failsFirst npmdownloads (fun o => o.npmPackageName) "npmPackageName is missing" ∧
      noMissingGiven1 npmdownloads (fun o => o.npmPackageName)) ∧
    (failsFirst daviddm (fun o => o.githubSlug) "githubSlug is missing" ∧
      noMissingGiven1 daviddm (fun o => o.githubSlug)) ∧
    (failsFirst daviddmdev (fun o => o.githubSlug) "githubSlug is missing" ∧
      noMissingGiven1 daviddmdev (fun o => o.githubSlug)) ∧
    (failsFirst nodeico (fun o => o.npmPackageName) "npmPackageName is missing" ∧
      noMissingGiven1 nodeico (fun o => o.npmPackageName)) ∧
    (failsFirst (fun o => saucelabsbm o none) (fun o => o.saucelabsUsername) "saucelabsUsername is missing" ∧
      failsSecond (fun o => saucelabsbm o none) (fun o => o.saucelabsUsername) (fun o => o.saucelabsAuthToken)
        "saucelabsAuthToken is missing" ∧
      noMissingGiven2 (fun o => saucelabsbm o none) (fun o => o.saucelabsUsername) (fun o => o.saucelabsAuthToken)) ∧
    (failsFirst (fun o => saucelabs o none) (fun o => o.saucelabsUsername) "saucelabsUsername is missing" ∧
      failsSecond (fun o => saucelabs o none) (fun o => o.saucelabsUsername) (fun o => o.saucelabsAuthToken)
        "saucelabsAuthToken is missing" ∧
      noMissingGiven2 (fun o => saucelabs o none) (fun o => o.saucelabsUsername) (fun o => o.saucelabsAuthToken)) ∧
    (failsFirst travisci (fun o => o.githubSlug) "githubSlug is missing" ∧
      noMissingGiven1 travisci (fun o => o.githubSlug)) ∧
    (failsFirst coveralls (fun o => o.githubSlug) "githubSlug is missing" ∧
      noMissingGiven1 coveralls (fun o => o.githubSlug)) ∧
    (failsFirst codeclimate (fun o => o.githubSlug) "githubSlug is missing" ∧
      noMissingGiven1 codeclimate (fun o => o.githubSlug)) ∧
    (failsFirst bithound (fun o => o.githubSlug) "githubSlug is missing" ∧
      noMissingGiven1 bithound (fun o => o.githubSlug)) ∧
    (failsFirst waffle (fun o => o.githubSlug) "githubSlug is missing" ∧
      noMissingGiven1 waffle (fun o => o.githubSlug)) ∧
    (failsBoth sixtydevstips (fun o => o.sixtydevstipsURL) (fun o => o.sixtydevstipsID)
        "sixtydevstipsID is missing" ∧
      noMissingEither sixtydevstips (fun o => o.sixtydevstipsURL) (fun o => o.sixtydevstipsID)) ∧
    (failsBoth patreon (fun o => o.patreonURL) (fun o => o.patreonUsername) "patreonUsername is missing" ∧
      noMissingEither patreon (fun o => o.patreonURL) (fun o => o.patreonUsername)) ∧
    (failsBoth opencollective (fun o => o.opencollectiveURL) (fun o => o.opencollectiveUsername)
        "opencollectiveUsername is missing" ∧
      noMissingEither opencollective (fun o => o.opencollectiveURL) (fun o => o.opencollectiveUsername)) ∧
    (failsBoth gratipay (fun o => o.gratipayURL) (fun o => o.gratipayUsername) "gratipayUsername is missing" ∧
      noMissingEither gratipay (fun o => o.gratipayURL) (fun o => o.gratipayUsername)) ∧
    (failsAllThree flattr (fun o => o.flattrURL) (fun o => o.flattrUsername) (fun o => o.flattrCode)
        "flattrUsername/flattrCode is missing" ∧
      noMissingAny3 flattr (fun o => o.flattrURL) (fun o => o.flattrUsername) (fun o => o.flattrCode)) ∧
    (failsAllThree paypal (fun o => o.paypalURL) (fun o => o.paypalButtonID) (fun o => o.paypalUsername)
        "paypalURL, paypalButtonID, or paypalUsername is missing, at least one must exist" ∧
      noMissingAny3 paypal (fun o => o.paypalURL) (fun o => o.paypalButtonID) (fun o => o.paypalUsername)) ∧
    (failsBoth crypto (fun o => o.cryptoURL) (fun o => o.bitcoinURL) "cryptoURL is missing" ∧
      noMissingEither crypto (fun o => o.cryptoURL) (fun o => o.bitcoinURL)) ∧
    (failsBoth bitcoin (fun o => o.cryptoURL) (fun o => o.bitcoinURL) "cryptoURL is missing" ∧
      noMissingEither bitcoin (fun o => o.cryptoURL) (fun o => o.bitcoinURL)) ∧
    (failsFirst wishlist (fun o => o.wishlistURL) "wishlistURL is missing" ∧
      noMissingGiven1 wishlist (fun o => o.wishlistURL)) ∧
    (failsBoth buymeacoffee (fun o => o.buymeacoffeeURL) (fun o => o.buymeacoffeeUsername)
        "buymeacoffeeUsername is missing" ∧
      noMissingEither buymeacoffee (fun o => o.buymeacoffeeURL) (fun o => o.buymeacoffeeUsername)) ∧
    (failsBoth liberapay (fun o => o.liberapayURL) (fun o => o.liberapayUsername) "liberapayUsername is missing" ∧
      noMissingEither liberapay (fun o => o.liberapayURL) (fun o => o.liberapayUsername)) ∧
    (failsBoth thanksapp (fun o => o.githubSlug) (fun o => o.npmPackageName)
        "githubSlug and npmPackageName are missing, at least one is required" ∧
      noMissingEither thanksapp (fun o => o.githubSlug) (fun o => o.npmPackageName)) ∧
    (failsFirst boostlab (fun o => o.githubSlug) "githubSlug is missing" ∧
      noMissingGiven1 boostlab (fun o => o.githubSlug)) ∧
    (failsFirst slackinscript (fun o => o.slackinURL) "slackinURL is missing" ∧
      noMissingGiven1 slackinscript (fun o => o.slackinURL)) ∧
    (failsFirst slackin (fun o => o.slackinURL) "slackinURL is missing" ∧
      noMissingGiven1 slackin (fun o => o.slackinURL)) ∧
    (failsFirst gabeacon (fun o => o.gaTrackingID) "gaTrackingID is missing" ∧
      failsSecond gabeacon (fun o => o.gaTrackingID) (fun o => o.githubSlug) "githubSlug is missing" ∧
      noMissingGiven2 gabeacon (fun o => o.gaTrackingID) (fun o => o.githubSlug)) ∧
    (failsFirst googleplusone (fun o => o.homepage) "homepage is missing" ∧
      noMissingGiven1 googleplusone (fun o => o.homepage)) ∧
    (failsFirst redditsubmit (fun o => o.homepage) "homepage is missing" ∧
      noMissingGiven1 redditsubmit (fun o => o.homepage)) ∧
    (failsFirst hackernewssubmit (fun o => o.homepage) "homepage is missing" ∧
      noMissingGiven1 hackernewssubmit (fun o => o.homepage)) ∧
    (failsFirst (fun o => facebooklike o none) (fun o => o.homepage) "homepage is missing" ∧
      failsSecond (fun o => facebooklike o none) (fun o => o.homepage) (fun o => o.facebookApplicationID)
        "facebookApplicationID is missing" ∧
      noMissingGiven2 (fun o => facebooklike o none) (fun o => o.homepage) (fun o => o.facebookApplicationID)) ∧
    (failsFirst (fun o => facebookfollow o none) (fun o => o.facebookUsername) "facebookUsername is missing" ∧
      failsSecond (fun o => facebookfollow o none) (fun o => o.facebookUsername) (fun o => o.facebookApplicationID)
        "facebookApplicationID is missing" ∧
      noMissingGiven2 (fun o => facebookfollow o none) (fun o => o.facebookUsername)
        (fun o => o.facebookApplicationID)) ∧
    (failsFirst twittertweet (fun o => o.twitterUsername) "twitterUsername is missing" ∧
      noMissingGiven1 twittertweet (fun o => o.twitterUsername)) ∧
    (failsFirst twitterfollow (fun o => o.twitterUsername) "twitterUsername is missing" ∧
      noMissingGiven1 twitterfollow (fun o => o.twitterUsername)) ∧
    (failsFirst githubfollow (fun o => o.githubUsername) "githubUsername is missing" ∧
      noMissingGiven1 githubfollow (fun o => o.githubUsername)) ∧
    (failsFirst githubstar (fun o => o.githubSlug) "githubSlug is missing" ∧
      noMissingGiven1 githubstar (fun o => o.githubSlug)) ∧
    (failsFirst quorafollow (fun o => o.quoraUsername) "quoraUsername is missing" ∧
      noMissingGiven1 quorafollow (fun o => o.quoraUsername)) :=
  ⟨⟨badge_missing_image, badge_ok⟩,
   ⟨codeship_missing_uuid, codeship_missing_id, codeship_ok⟩,
   ⟨shields_missing_left, shields_missing_right, shields_ok⟩,
   ⟨npmversion_missing, npmversion_ok⟩,
   ⟨npmdownloads_missing, npmdownloads_ok⟩,
   ⟨daviddm_missing, daviddm_ok⟩,
   ⟨daviddmdev_missing, daviddmdev_ok⟩,
   ⟨nodeico_missing, nodeico_ok⟩,
   ⟨saucelabsbm_missing_username, saucelabsbm_missing_token, saucelabsbm_ok⟩,
   ⟨saucelabs_missing_username, saucelabs_missing_token, saucelabs_ok⟩,
   ⟨travisci_missing, travisci_ok⟩,
   ⟨coveralls_missing, coveralls_ok⟩,
   ⟨codeclimate_missing, codeclimate_ok⟩,
   ⟨bithound_missing, bithound_ok⟩,
   ⟨waffle_missing, waffle_ok⟩,
   ⟨sixtydevstips_missing, sixtydevstips_ok⟩,
   ⟨patreon_missing, patreon_ok⟩,
   ⟨opencollective_missing, opencollective_ok⟩,
   ⟨gratipay_missing, gratipay_ok⟩,
   ⟨flattr_missing, flattr_ok⟩,
   ⟨paypal_missing, paypal_ok⟩,
   ⟨crypto_missing, crypto_ok⟩,
   ⟨bitcoin_missing, bitcoin_ok⟩,
   ⟨wishlist_missing, wishlist_ok⟩,
   ⟨buymeacoffee_missing, buymeacoffee_ok⟩,
   ⟨liberapay_missing, liberapay_ok⟩,
   ⟨thanksapp_missing, thanksapp_ok⟩,
   ⟨boostlab_missing, boostlab_ok⟩,
   ⟨slackinscript_missing, slackinscript_ok⟩,
   ⟨slackin_missing, slackin_ok⟩,
   ⟨gabeacon_missing_tracking, gabeacon_missing_slug, gabeacon_ok⟩,
   ⟨googleplusone_missing, googleplusone_ok⟩,
   ⟨redditsubmit_missing, redditsubmit_ok⟩,
   ⟨hackernewssubmit_missing, hackernewssubmit_ok⟩,
   ⟨facebooklike_missing_homepage, facebooklike_missing_appid, facebooklike_ok⟩,
   ⟨facebookfollow_missing_username, facebookfollow_missing_appid, facebookfollow_ok⟩,
   ⟨twittertweet_missing, twittertweet_ok⟩,
   ⟨twitterfollow_missing, twitterfollow_ok⟩,
   ⟨githubfollow_missing, githubfollow_ok⟩,
   ⟨githubstar_missing, githubstar_ok⟩,
   ⟨quorafollow_missing, quorafollow_ok⟩⟩

/-- Witness for C2: `badge({})` fails naming `image`, and `codeship({})`,
with both required fields missing, reports `codeshipProjectUUID` (the first
declared field). -/
theorem generators_required_fields_witness :
    badge {} = Except.error (BadgeError.missingField "image is missing") ∧
      codeship {} = Except.error (BadgeError.missingField "codeshipProjectUUID is missing") :=
  ⟨generators_required_fields.1.1 {} rfl, generators_required_fields.2.1.1 {} rfl⟩

/-- C4: for every configuration object, `bitcoin` behaves identically to
`crypto` — the same output string on success and the same error on failure. -/
theorem bitcoin_forwards_to_crypto : ∀ o : Opts, bitcoin o = crypto o := fun _ => rfl

/-- Witness for C4 at the spec's example input `{cryptoURL: "http://x"}`. -/
theorem bitcoin_forwards_to_crypto_witness :
    bitcoin { cryptoURL := some "http://x" } = crypto { cryptoURL := some "http://x" } :=
  bitcoin_forwards_to_crypto _

/-- C8: for every configuration object and fixed environment, `saucelabsbm`
behaves identically to `saucelabs`; the two differ only in metadata
(`saucelabsbm` carries `badgeInline = false`). -/
theorem saucelabsbm_matches_saucelabs :
    (∀ (o : Opts) (env : Option String), saucelabsbm o env = saucelabs o env) ∧
      saucelabsbmBadgeInline = false :=
  ⟨fun _ _ => rfl, rfl⟩

/-- Witness for C8 at a concrete configuration and environment. -/
theorem saucelabsbm_matches_saucelabs_witness :
    saucelabsbm { saucelabsUsername := some "u", saucelabsAuthToken := some "t" } none =
      saucelabs { saucelabsUsername := some "u", saucelabsAuthToken := some "t" } none :=
  saucelabsbm_matches_saucelabs.1 _ _

/-- C3: `paypal` resolves its link URL by the fallback chain: a truthy
`paypalURL` is used as given; otherwise a truthy `paypalButtonID` yields the
hosted-button URL containing the escaped ID; otherwise a truthy
`paypalUsername` yields `https://paypal.me/{paypalUsername}`; and with all
three absent/empty the call fails with the missing-field error. -/
theorem paypal_url_resolution (o : Opts) :
    (truthy o.paypalURL = true →
      paypal o = .ok ("<a href=\"" ++ o.paypalURL.getD "" ++ "\" title=\"" ++
        "Donate to this project using Paypal" ++ "\">" ++
        ("<img src=\"" ++ "https://img.shields.io/badge/paypal-donate-yellow.svg" ++ "\" alt=\"" ++
          "PayPal donate button" ++ "\" />") ++ "</a>")) ∧
    (truthy o.paypalURL = false → truthy o.paypalButtonID = true →
      paypal o = .ok ("<a href=\"" ++
        ("https://www.paypal.com/cgi-bin/webscr?cmd=_s-xclick&amp;hosted_button_id=" ++
          escape (o.paypalButtonID.getD "")) ++ "\" title=\"" ++
        "Donate to this project using Paypal" ++ "\">" ++
        ("<img src=\"" ++ "https://img.shields.io/badge/paypal-donate-yellow.svg" ++ "\" alt=\"" ++
          "PayPal donate button" ++ "\" />") ++ "</a>")) ∧
    (truthy o.paypalURL = false → truthy o.paypalButtonID = false → truthy o.paypalUsername = true →
      paypal o = .ok ("<a href=\"" ++ ("https://paypal.me/" ++ o.paypalUsername.getD "") ++ "\" title=\"" ++
        "Donate to this project using Paypal" ++ "\">" ++
        ("<img src=\"" ++ "https://img.shields.io/badge/paypal-donate-yellow.svg" ++ "\" alt=\"" ++
          "PayPal donate button" ++ "\" />") ++ "</a>")) ∧
    (truthy o.paypalURL = false → truthy o.paypalButtonID = false → truthy o.paypalUsername = false →
      paypal o = .error
        (.missingField "paypalURL, paypalButtonID, or paypalUsername is missing, at least one must exist")) := by
  refine ⟨?_, ?_, ?_, ?_⟩
  · intro h
    have hg : (o.paypalURL.getD "" == "") = false := beq_empty_false_of_truthy _ h
    simp [paypal, badge, h, hg]
  · intro h1 h2
    simp [paypal, badge, h1, h2]
  · intro h1 h2 h3
    simp [paypal, badge, h1, h2, h3]
  · intro h1 h2 h3
    simp [paypal, h1, h2, h3]

/-- Witness for C3: `paypal({paypalUsername: "bob"})` links to
`https://paypal.me/bob`, and `paypal({})` fails with the missing-field
error. -/
theorem paypal_url_resolution_witness :
    paypal { paypalUsername := some "bob" } =
      Except.ok "<a href=\"https://paypal.me/bob\" title=\"Donate to this project using Paypal\"><img src=\"https://img.shields.io/badge/paypal-donate-yellow.svg\" alt=\"PayPal donate button\" /></a>" ∧
    paypal {} = Except.error
      (BadgeError.missingField "paypalURL, paypalButtonID, or paypalUsername is missing, at least one must exist") :=
  ⟨(paypal_url_resolution { paypalUsername := some "bob" }).2.2.1 rfl rfl rfl,
   (paypal_url_resolution {}).2.2.2 rfl rfl rfl⟩

/-- C5: given a truthy slug, `githubstar` splits it on `/`; when the first or
the second piece is empty (in particular for a slug with no `/`) it fails with
the invalid-slug error, and when both pieces are non-empty it succeeds and
interpolates the two escaped pieces into the iframe URL. -/
theorem githubstar_slug_validation (o : Opts) (h : truthy o.githubSlug = true) :
    ((jsSplit (o.githubSlug.getD "") (Char.ofNat 47))[0]?.getD "" = "" ∨
        (jsSplit (o.githubSlug.getD "") (Char.ofNat 47))[1]?.getD "" = "" →
      githubstar o = .error (.invalidSlug "githubSlug is invalid")) ∧
    ((jsSplit (o.githubSlug.getD "") (Char.ofNat 47))[0]?.getD "" ≠ "" →
      (jsSplit (o.githubSlug.getD "") (Char.ofNat 47))[1]?.getD "" ≠ "" →
      githubstar o = .ok ("<iframe src=\"https://ghbtns.com/github-btn.html?user=" ++
        escape ((jsSplit (o.githubSlug.getD "") (Char.ofNat 47))[0]?.getD "") ++ "&amp;repo=" ++
        escape ((jsSplit (o.githubSlug.getD "") (Char.ofNat 47))[1]?.getD "") ++
        "&amp;type=watch&amp;count=true\" allowtransparency=\"true\" frameborder=\"0\" scrolling=\"0\" width=\"110\" height=\"20\"></iframe>")) := by
  constructor
  · intro hc
    rcases hc with hc | hc <;> simp [githubstar, h, hc]
  · intro h0 h1
    simp [githubstar, h, h0, h1]

/-- Witness for C5: `githubstar({githubSlug: "a/b"})` succeeds with the two
escaped halves in the iframe URL, and `githubstar({githubSlug: "ab"})` fails
with the invalid-slug error. -/
theorem githubstar_slug_validation_witness :
    githubstar { githubSlug := some "a/b" } =
      Except.ok "<iframe src=\"https://ghbtns.com/github-btn.html?user=a&amp;repo=b&amp;type=watch&amp;count=true\" allowtransparency=\"true\" frameborder=\"0\" scrolling=\"0\" width=\"110\" height=\"20\"></iframe>" ∧
    githubstar { githubSlug := some "ab" } = Except.error (BadgeError.invalidSlug "githubSlug is invalid") :=
  ⟨(githubstar_slug_validation { githubSlug := some "a/b" } (by decide)).2 (by decide) (by decide),
   (githubstar_slug_validation { githubSlug := some "ab" } (by decide)).1 (by decide)⟩

/-- Counterexample to C6 as stated: for the empty mapping `{}` the
serialization is the empty string and `nodeico` appends nothing — the image
URL has no `?` — whereas the claim's mapping clause (serialize and append
after `?`) would give an image URL ending in `?`. -/
theorem nodeico_empty_mapping_counterexample :
    nodeico { npmPackageName := some "foo", nodeicoQueryString := some (QueryValue.obj []) } =
      Except.ok "<a href=\"https://www.npmjs.com/package/foo\" title=\"Nodei.co badge\"><img src=\"https://nodei.co/npm/foo.png\" alt=\"Nodei.co badge\" /></a>" ∧
    nodeico { npmPackageName := some "foo", nodeicoQueryString := some (QueryValue.obj []) } ≠
      Except.ok ("<a href=\"https://www.npmjs.com/package/foo\" title=\"Nodei.co badge\"><img src=\"https://nodei.co/npm/foo.png?" ++ qsStringify [] ++ "\" alt=\"Nodei.co badge\" /></a>") :=
  ⟨rfl, by decide⟩

/-- C6 (amended): `nodeico`, given a truthy `npmPackageName`: a key→value
mapping is serialized to `key=value&...` form (keys in insertion order, values
URL-escaped) and, when that serialization is non-empty, appended to the image
URL after `?` — an empty mapping, whose serialization is empty, appends
nothing; a non-empty string is appended verbatim after `?`; when the option is
absent no `?` is appended; and a present value that is neither a string nor a
mapping fails with the invalid-type error. -/
theorem nodeico_query_serialization (o : Opts) (h : truthy o.npmPackageName = true) :
    (o.nodeicoQueryString = none →
      nodeico o = .ok ("<a href=\"" ++ ("https://www.npmjs.com/package/" ++ o.npmPackageName.getD "") ++
        "\" title=\"" ++ "Nodei.co badge" ++ "\">" ++
        ("<img src=\"" ++ ("https://nodei.co/npm/" ++ o.npmPackageName.getD "" ++ ".png") ++ "\" alt=\"" ++
          "Nodei.co badge" ++ "\" />") ++ "</a>")) ∧
    (∀ s, o.nodeicoQueryString = some (QueryValue.str s) → s ≠ "" →
      nodeico o = .ok ("<a href=\"" ++ ("https://www.npmjs.com/package/" ++ o.npmPackageName.getD "") ++
        "\" title=\"" ++ "Nodei.co badge" ++ "\">" ++
        ("<img src=\"" ++ ("https://nodei.co/npm/" ++ o.npmPackageName.getD "" ++ ".png" ++ "?" ++ s) ++
          "\" alt=\"" ++ "Nodei.co badge" ++ "\" />") ++ "</a>")) ∧
    (∀ ps, o.nodeicoQueryString = some (QueryValue.obj ps) → qsStringify ps ≠ "" →
      nodeico o = .ok ("<a href=\"" ++ ("https://www.npmjs.com/package/" ++ o.npmPackageName.getD "") ++
        "\" title=\"" ++ "Nodei.co badge" ++ "\">" ++
        ("<img src=\"" ++ ("https://nodei.co/npm/" ++ o.npmPackageName.getD "" ++ ".png" ++ "?" ++ qsStringify ps) ++
          "\" alt=\"" ++ "Nodei.co badge" ++ "\" />") ++ "</a>")) ∧
    (∀ ps, o.nodeicoQueryString = some (QueryValue.obj ps) → qsStringify ps = "" →
      nodeico o = .ok ("<a href=\"" ++ ("https://www.npmjs.com/package/" ++ o.npmPackageName.getD "") ++
        "\" title=\"" ++ "Nodei.co badge" ++ "\">" ++
        ("<img src=\"" ++ ("https://nodei.co/npm/" ++ o.npmPackageName.getD "" ++ ".png") ++ "\" alt=\"" ++
          "Nodei.co badge" ++ "\" />") ++ "</a>")) ∧
    (o.nodeicoQueryString = some QueryValue.other →
      nodeico o = .error (.invalidType "nodeicoQueryString must be a string or an object")) := by
  refine ⟨?_, ?_, ?_, ?_, ?_⟩
  · intro hq
    simp [nodeico, badge, qTruthy, qIsString, qIsObject, h, hq]
  · intro s hq hs
    simp [nodeico, badge, qTruthy, qIsString, qIsObject, h, hq, hs]
  · intro ps hq hps
    simp [nodeico, badge, qTruthy, qIsString, qIsObject, h, hq, hps]
  · intro ps hq hps
    simp [nodeico, badge, qTruthy, qIsString, qIsObject, h, hq, hps]
  · intro hq
    simp [nodeico, qTruthy, qIsString, qIsObject, h, hq]

/-- Witness for C6 (amended), at the spec's example: the mapping
`{a: "1", b: "2"}` yields an image URL ending in `?a=1&b=2`, keys in insertion
order. -/
theorem nodeico_query_serialization_witness :
    nodeico { npmPackageName := some "foo",
              nodeicoQueryString := some (QueryValue.obj [("a", "1"), ("b", "2")]) } =
      Except.ok "<a href=\"https://www.npmjs.com/package/foo\" title=\"Nodei.co badge\"><img src=\"https://nodei.co/npm/foo.png?a=1&b=2\" alt=\"Nodei.co badge\" /></a>" := by
  have h := (nodeico_query_serialization
    { npmPackageName := some "foo", nodeicoQueryString := some (QueryValue.obj [("a", "1"), ("b", "2")]) }
    (by decide)).2.2.1 [("a", "1"), ("b", "2")] rfl (by decide)
  simpa using h

/-- C7: `saucelabs`, given a truthy `saucelabsUsername`: a truthy explicit
`saucelabsAuthToken` is escaped and embedded in the image URL's `auth` query
parameter, taking precedence over the environment; with the explicit token
absent/empty it falls back to the `SAUCELABS_AUTH_TOKEN` environment value;
and with both absent/empty the call fails with the missing-field error for
`saucelabsAuthToken`. -/
theorem saucelabs_env_fallback (o : Opts) (env : Option String) (h : truthy o.saucelabsUsername = true) :
    (truthy o.saucelabsAuthToken = true →
      saucelabs o env = .ok ("<a href=\"" ++ ("https://saucelabs.com/u/" ++ o.saucelabsUsername.getD "") ++
        "\" title=\"" ++ "Check this project\x27s browser tests on Sauce Labs" ++ "\">" ++
        ("<img src=\"" ++ ("https://saucelabs.com/browser-matrix/" ++ o.saucelabsUsername.getD "" ++
          ".svg?auth=" ++ escape (o.saucelabsAuthToken.getD "")) ++ "\" alt=\"" ++
          "Sauce Labs Browser Matrix" ++ "\" />") ++ "</a>")) ∧
    (truthy o.saucelabsAuthToken = false → truthy env = true →
      saucelabs o env = .ok ("<a href=\"" ++ ("https://saucelabs.com/u/" ++ o.saucelabsUsername.getD "") ++
        "\" title=\"" ++ "Check this project\x27s browser tests on Sauce Labs" ++ "\">" ++
        ("<img src=\"" ++ ("https://saucelabs.com/browser-matrix/" ++ o.saucelabsUsername.getD "" ++
          ".svg?auth=" ++ escape (env.getD "")) ++ "\" alt=\"" ++
          "Sauce Labs Browser Matrix" ++ "\" />") ++ "</a>")) ∧
    (truthy o.saucelabsAuthToken = false → truthy env = false →
      saucelabs o env = .error (.missingField "saucelabsAuthToken is missing")) := by
  refine ⟨?_, ?_, ?_⟩
  · intro ht
    simp [saucelabs, jsOr, badge, h, ht]
  · intro ht he
    simp [saucelabs, jsOr, badge, h, ht, he]
  · intro ht he
    simp [saucelabs, jsOr, h, ht, he]

/-- Witness for C7: with no explicit token, the environment value is used in
the `auth` parameter; with neither, the call fails. -/
theorem saucelabs_env_fallback_witness :
    saucelabs { saucelabsUsername := some "u" } (some "tok") =
      Except.ok "<a href=\"https://saucelabs.com/u/u\" title=\"Check this project\x27s browser tests on Sauce Labs\"><img src=\"https://saucelabs.com/browser-matrix/u.svg?auth=tok\" alt=\"Sauce Labs Browser Matrix\" /></a>" ∧
    saucelabs { saucelabsUsername := some "u" } none =
      Except.error (BadgeError.missingField "saucelabsAuthToken is missing") :=
  ⟨(saucelabs_env_fallback { saucelabsUsername := some "u" } (some "tok") (by decide)).2.1 rfl rfl,
   (saucelabs_env_fallback { saucelabsUsername := some "u" } none (by decide)).2.2 rfl rfl⟩

/-- C9: `crypto` also accepts the undocumented `bitcoinURL` field: with
`cryptoURL` absent/empty and `bitcoinURL` truthy it succeeds using
`bitcoinURL` as the link URL; with both truthy `cryptoURL` takes precedence;
and with both absent/empty the error names `cryptoURL` only. -/
theorem crypto_accepts_bitcoinURL (o : Opts) :
    (truthy o.cryptoURL = false → truthy o.bitcoinURL = true →
      crypto o = .ok ("<a href=\"" ++ o.bitcoinURL.getD "" ++ "\" title=\"" ++
        "Donate to this project using Cryptocurrency" ++ "\">" ++
        ("<img src=\"" ++ "https://img.shields.io/badge/crypto-donate-yellow.svg" ++ "\" alt=\"" ++
          "crypto donate button" ++ "\" />") ++ "</a>")) ∧
    (truthy o.cryptoURL = true →
      crypto o = .ok ("<a href=\"" ++ o.cryptoURL.getD "" ++ "\" title=\"" ++
        "Donate to this project using Cryptocurrency" ++ "\">" ++
        ("<img src=\"" ++ "https://img.shields.io/badge/crypto-donate-yellow.svg" ++ "\" alt=\"" ++
          "crypto donate button" ++ "\" />") ++ "</a>")) ∧
    (truthy o.cryptoURL = false → truthy o.bitcoinURL = false →
      crypto o = .error (.missingField "cryptoURL is missing")) := by
  refine ⟨?_, ?_, ?_⟩
  · intro h1 h2
    simp [crypto, jsOr, badge, h1, h2]
  · intro h1
    simp [crypto, jsOr, badge, h1]
  · intro h1 h2
    simp [crypto, jsOr, h1, h2]

/-- Witness for C9: `crypto({bitcoinURL: "http://b"})` succeeds and links to
`http://b`; `crypto({})` fails naming `cryptoURL`. -/
theorem crypto_accepts_bitcoinURL_witness :
    crypto { bitcoinURL := some "http://b" } =
      Except.ok "<a href=\"http://b\" title=\"Donate to this project using Cryptocurrency\"><img src=\"https://img.shields.io/badge/crypto-donate-yellow.svg\" alt=\"crypto donate button\" /></a>" ∧
    crypto {} = Except.error (BadgeError.missingField "cryptoURL is missing") :=
  ⟨(crypto_accepts_bitcoinURL { bitcoinURL := some "http://b" }).1 rfl rfl,
   (crypto_accepts_bitcoinURL {}).2.2 rfl rfl⟩

/-- C10: `thanksapp` builds its link URL from `npmPackageName`
(`https://givethanks.app/donate/npm/{npmPackageName}`) whenever that field is
truthy — in particular when `githubSlug` is also supplied — and uses
`github/{githubSlug}` only when `npmPackageName` is absent/empty. -/
theorem thanksapp_npm_precedence (o : Opts) :
    (truthy o.npmPackageName = true →
      thanksapp o = .ok ("<a href=\"" ++
        ("https://givethanks.app/donate/" ++ ("npm/" ++ o.npmPackageName.getD "")) ++ "\" title=\"" ++
        "Donate to this project using Thanks App" ++ "\">" ++
        ("<img src=\"" ++ "https://img.shields.io/badge/thanksapp-donate-yellow.svg" ++ "\" alt=\"" ++
          "Thanks App donate button" ++ "\" />") ++ "</a>")) ∧
    (truthy o.npmPackageName = false → truthy o.githubSlug = true →
      thanksapp o = .ok ("<a href=\"" ++
        ("https://givethanks.app/donate/" ++ ("github/" ++ o.githubSlug.getD "")) ++ "\" title=\"" ++
        "Donate to this project using Thanks App" ++ "\">" ++
        ("<img src=\"" ++ "https://img.shields.io/badge/thanksapp-donate-yellow.svg" ++ "\" alt=\"" ++
          "Thanks App donate button" ++ "\" />") ++ "</a>")) := by
  constructor
  · intro h
    simp [thanksapp, badge, h]
  · intro h1 h2
    simp [thanksapp, badge, h1, h2]

/-- Witness for C10: with both fields supplied, the link URL comes from the
npm package name. -/
theorem thanksapp_npm_precedence_witness :
    thanksapp { githubSlug := some "g/h", npmPackageName := some "p" } =
      Except.ok "<a href=\"https://givethanks.app/donate/npm/p\" title=\"Donate to this project using Thanks App\"><img src=\"https://img.shields.io/badge/thanksapp-donate-yellow.svg\" alt=\"Thanks App donate button\" /></a>" := by
  have h := (thanksapp_npm_precedence { githubSlug := some "g/h", npmPackageName := some "p" }).1 rfl
  simpa using h

end Badges
